import Mathlib

/-!
Verification of the Pangloss lightcone lensing engine against its
natural-language specification.

The definitions below are a shallow embedding of the code in
`pangloss/lightcone.py` and `pangloss/background.py`: floating-point
arrays become lists of real numbers, the astropy galaxy table becomes an
association list from column names to value lists, and per-galaxy numpy
array arithmetic becomes per-row functions mapped over a list of rows.
-/

namespace Pangloss

/- ----------------------------------------------------------------- -/
/- The galaxy table and writeColumn (lightcone.py, lines 282-286)    -/
/- ----------------------------------------------------------------- -/

/-- Column-oriented galaxy table: an association list from column names to
value arrays, mirroring the astropy table held in `Lightcone.galaxies`.
Rows are the positions within each value list. -/
abbrev Table := List (String × List ℝ)

/-- Reading a column of the table: first entry whose name matches, as
`self.galaxies[name]` does in astropy. -/
def colLookup : Table → String → Option (List ℝ)
  | [], _ => none
  | c :: t, n => if c.1 = n then some c.2 else colLookup t n

/-- `Lightcone.writeColumn(string, values)`: `add_column` appends a fresh
column, and when the name already exists astropy raises `ValueError` and the
`except` branch overwrites the existing column in place
(`self.galaxies[string] = values`). -/
def writeColumn (t : Table) (name : String) (vals : List ℝ) : Table :=
  if t.any fun c => c.1 = name then
    t.map fun c => if c.1 = name then (c.1, vals) else c
  else t ++ [(name, vals)]

/-- A concrete one-column table used to instantiate theorems. -/
def tEx : Table := [(("z"), [(1 : ℝ)])]

noncomputable section

/- ----------------------------------------------------------------- -/
/- Geometry: the Lightcone constructor cut (lightcone.py, 96-115)    -/
/- ----------------------------------------------------------------- -/

/-- `pangloss.rad2arcmin`: radians to arcminutes, 180*60/pi. -/
def rad2arcmin : ℝ := 10800 / Real.pi

/-- `pangloss.arcmin2rad`: arcminutes to radians, pi/(180*60). -/
def arcmin2rad : ℝ := Real.pi / 10800

/-- A catalog row as seen by the constructor cut: sky position in radians. -/
structure SkyPos where
  RA : ℝ
  Dec : ℝ

/-- Local tangent-plane x in arcmin:
`x = -cos(Dec)*(RA - xc[0])*rad2arcmin` (RA axis is left-handed). -/
def xLocal (xc0 : ℝ) (p : SkyPos) : ℝ :=
  -Real.cos p.Dec * (p.RA - xc0) * rad2arcmin

/-- Local tangent-plane y in arcmin: `y = (Dec - xc[1])*rad2arcmin`. -/
def yLocal (xc1 : ℝ) (p : SkyPos) : ℝ := (p.Dec - xc1) * rad2arcmin

/-- Local tangent-plane radius `r = sqrt(x*x + y*y)` in arcmin. -/
def rLocal (xc0 xc1 : ℝ) (p : SkyPos) : ℝ :=
  Real.sqrt (xLocal xc0 p ^ 2 + yLocal xc1 p ^ 2)

/-- The coarse square pre-filter of the constructor: strict window of
half-width `rmax*arcmin2rad` radians around the cone centre in RA and Dec. -/
def inSquare (xc0 xc1 rmax : ℝ) (p : SkyPos) : Prop :=
  xc0 - rmax * arcmin2rad < p.RA ∧ p.RA < xc0 + rmax * arcmin2rad ∧
  xc1 - rmax * arcmin2rad < p.Dec ∧ p.Dec < xc1 + rmax * arcmin2rad

open Classical in
/-- The galaxy selection of `Lightcone.__init__`: the square pre-filter on
the raw catalog followed by the circular trim `r < rmax` (arcmin). -/
def lightconeSelect (catalog : List SkyPos) (xc0 xc1 rmax : ℝ) :
    List SkyPos :=
  (catalog.filter fun p => decide (inSquare xc0 xc1 rmax p)).filter
    fun p => decide (rLocal xc0 xc1 p < rmax)

/-- A catalog galaxy sitting at the celestial pole, 2 arcmin away from the
cone centre in RA only.  Its tangent-plane radius is 0 because of the
cos(Dec) factor, yet it fails the square RA window. -/
def pPole : SkyPos := ⟨2 * arcmin2rad, Real.pi / 2⟩

/- ----------------------------------------------------------------- -/
/- combineKappas / combineMus (lightcone.py, 433-528)                -/
/- ----------------------------------------------------------------- -/

/-- One galaxy row of the lightcone table as read by `combineKappas` and
`combineMus`: the per-halo convergence, shear modulus, shear components and
lensing efficiency columns. -/
structure Galaxy where
  kappa : ℝ
  gamma : ℝ
  gamma1 : ℝ
  gamma2 : ℝ
  beta : ℝ

/-- The shared denominator `(1-B*K)**2 - (B*G)**2` of the keeton scheme. -/
def keetonDenom (g : Galaxy) : ℝ :=
  (1 - g.beta * g.kappa) ^ 2 - (g.beta * g.gamma) ^ 2

/-- Per-row `kappa_keeton = (1.-B)*(K - B*(K**2-G**2)) / ((1-B*K)**2-(B*G)**2)`. -/
def kappa_keeton (g : Galaxy) : ℝ :=
  (1 - g.beta) * (g.kappa - g.beta * (g.kappa ^ 2 - g.gamma ^ 2)) /
    keetonDenom g

/-- Per-row `gamma1_keeton = (1.-B)*G1 / ((1-B*K)**2-(B*G)**2)`. -/
def gamma1_keeton (g : Galaxy) : ℝ := (1 - g.beta) * g.gamma1 / keetonDenom g

/-- Per-row `gamma2_keeton = (1.-B)*G2 / ((1-B*K)**2-(B*G)**2)`. -/
def gamma2_keeton (g : Galaxy) : ℝ := (1 - g.beta) * g.gamma2 / keetonDenom g

/-- Per-row `kappa_tom = (1.-B)*K`. -/
def kappa_tom (g : Galaxy) : ℝ := (1 - g.beta) * g.kappa

/-- Per-row `gamma1_tom = (1.-B)*G1`. -/
def gamma1_tom (g : Galaxy) : ℝ := (1 - g.beta) * g.gamma1

/-- Per-row `gamma2_tom = (1.-B)*G2`. -/
def gamma2_tom (g : Galaxy) : ℝ := (1 - g.beta) * g.gamma2

/-- The total attributes set by `combineKappas`; `none` models an attribute
that has not been assigned (reading it in Python raises AttributeError). -/
structure LCState where
  kappa_add_total : Option ℝ := none
  gamma1_add_total : Option ℝ := none
  gamma2_add_total : Option ℝ := none
  kappa_keeton_total : Option ℝ := none
  gamma1_keeton_total : Option ℝ := none
  gamma2_keeton_total : Option ℝ := none
  kappa_tom_total : Option ℝ := none
  gamma1_tom_total : Option ℝ := none
  gamma2_tom_total : Option ℝ := none

/-- One pass of the `for method in methods` loop body of
`Lightcone.combineKappas`: each recognised name computes and stores its
totals; any other name matches none of the three `if` tests, so the state
is returned unchanged. -/
def applyMethod (gs : List Galaxy) (fk : Option (List ℝ)) (s : LCState)
    (m : String) : LCState :=
  if m = ("keeton") then
    { s with
      kappa_keeton_total := some (gs.map kappa_keeton).sum
      gamma1_keeton_total := some (gs.map gamma1_keeton).sum
      gamma2_keeton_total := some (gs.map gamma2_keeton).sum }
  else if m = ("tom") then
    { s with
      kappa_tom_total := some (gs.map kappa_tom).sum
      gamma1_tom_total := some (gs.map gamma1_tom).sum
      gamma2_tom_total := some (gs.map gamma2_tom).sum }
  else if m = ("add") then
    { s with
      gamma1_add_total := some (gs.map Galaxy.gamma1).sum
      gamma2_add_total := some (gs.map Galaxy.gamma2).sum
      kappa_add_total := some
        (match fk with
         | none => (gs.map Galaxy.kappa).sum
         | some l => (gs.map Galaxy.kappa).sum - l.sum) }
  else s

/-- `Lightcone.combineKappas(methods, foreground_kappas)`: folds the method
loop over the requested scheme names, starting from a lightcone with no
totals assigned. -/
def combineKappas (gs : List Galaxy) (fk : Option (List ℝ))
    (methods : List String) : LCState :=
  methods.foldl (applyMethod gs fk) {}

/-- `Gsum = sqrt(G1sum**2 + G2sum**2)` as computed in `combineMus`. -/
def Gsum (gs : List Galaxy) : ℝ :=
  Real.sqrt ((gs.map Galaxy.gamma1).sum ^ 2 + (gs.map Galaxy.gamma2).sum ^ 2)

/-- `Lightcone.combineMus(weakapprox)`: reads `self.kappa_add_total`
(AttributeError, modelled as `none`, when `combineKappas` has not run with
the add scheme), and returns `1 + 2*Ksum` under the weak approximation or
the plain reciprocal `1/((1-Ksum)**2 - Gsum**2)` otherwise. -/
def combineMus (gs : List Galaxy) (s : LCState) (weakapprox : Bool) :
    Option ℝ :=
  s.kappa_add_total.map fun Ksum =>
    if weakapprox then 1 + 2 * Ksum
    else 1 / ((1 - Ksum) ^ 2 - Gsum gs ^ 2)

/-- The magnification assignment of `Lightcone.makeKappas` (line 420):
`mu = 1.0/(((1.0 - kappa)**2.0) - (gamma**2.0))`, an unguarded division
applied to each halo's already-computed convergence and shear. -/
def makeKappas_mu (kappa gamma : ℝ) : ℝ :=
  1 / ((1 - kappa) ^ 2 - gamma ^ 2)

/-- A concrete galaxy row with nonzero beta, used to instantiate theorems. -/
def gEx : Galaxy := ⟨1, 2, 3, 4, 5⟩

/-- A concrete galaxy row with beta = 0. -/
def gEx0 : Galaxy := ⟨2, 3, 5, 7, 0⟩

/-- A critical galaxy row: kappa = 1 and gamma = 0 drive the
exact-magnification denominator `(1-kappa)**2 - gamma**2` to zero. -/
def gCrit : Galaxy := ⟨1, 0, 0, 0, 0⟩

/- ----------------------------------------------------------------- -/
/- Background catalog lensing (background.py, 236-302 and 304-459)   -/
/- ----------------------------------------------------------------- -/

/-- One background source before lensing: intrinsic ellipticity components,
the strong-lensing flag column (initialised to 0 by the constructor), and
the convergence/shear at its position (map lookups in `lens_by_map`, the
chosen lightcone totals in `lens_by_halos`). -/
structure BGSource where
  e1_int : ℝ
  e2_int : ℝ
  strong_flag : ℕ
  kappa : ℝ
  gamma1 : ℝ
  gamma2 : ℝ

/-- Reduced shear `g = (gamma1 + 1j*gamma2)/(1.0 - kappa)`. -/
def reducedShear (s : BGSource) : ℂ :=
  ((s.gamma1 : ℂ) + (s.gamma2 : ℂ) * Complex.I) / (1 - (s.kappa : ℂ))

/-- The observed-ellipticity branch logic shared by `lens_by_map` and
`lens_by_halos`.  Weak branch (`|g| < 1`):
`e = (e_int + g)/(1 + conj(g)*e_int)`.  Strong branch (the complement):
the code builds `e1_int_conj`/`e2_int_conj` by conjugating the two real
component arrays separately - a no-op on reals - and recombines them as
`e1_int_conj + 1j*e2_int_conj`, which is `e_int` itself, so the computed
value is `e = (1 + g*e_int)/(e_int + conj(g))`. -/
def e_obs (eInt g : ℂ) : ℂ :=
  if Complex.abs g < 1 then (eInt + g) / (1 + (starRingEnd ℂ) g * eInt)
  else (1 + g * eInt) / (eInt + (starRingEnd ℂ) g)

/-- Modelled from the spec (§4.5 EllipticityCompositor), for comparison
with `e_obs`: the strong-lensing branch of the contract reads
`e_obs = (1 + g*conj(e_int)) / (conj(e_int) + conj(g))`. -/
def e_obs_spec (eInt g : ℂ) : ℂ :=
  if Complex.abs g < 1 then (eInt + g) / (1 + (starRingEnd ℂ) g * eInt)
  else (1 + g * (starRingEnd ℂ) eInt) /
    ((starRingEnd ℂ) eInt + (starRingEnd ℂ) g)

/-- A lensed background source: the per-source outputs written back into
the catalog by the batch lensing operations. -/
structure LensedSource where
  e1_int : ℝ
  e2_int : ℝ
  strong_flag : ℕ
  g : ℂ
  e : ℂ

/-- The per-source work shared by both batch operations: compute the
reduced shear, set `strong_flag` to 1 when `|g| > 0.5`, and compute the
observed ellipticity through the weak/strong branch. -/
def lensOne (s : BGSource) : LensedSource :=
  let g := reducedShear s
  let eInt : ℂ := (s.e1_int : ℂ) + (s.e2_int : ℂ) * Complex.I
  { e1_int := s.e1_int
    e2_int := s.e2_int
    strong_flag := if 0.5 < Complex.abs g then 1 else s.strong_flag
    g := g
    e := e_obs eInt g }

/-- `BackgroundCatalog.lens_by_map`: lenses every source, then drops the
rows with `strong_flag == 1`, and only afterwards computes
`strong_lensed_removed = np.sum(self.galaxies['strong_flag'])` - a sum
taken over the already-filtered catalog. Returns the remaining catalog and
the recorded count. -/
def lens_by_map (cat : List BGSource) : List LensedSource × ℕ :=
  let lensed := cat.map lensOne
  let remaining := lensed.filter fun s => s.strong_flag != 1
  (remaining, (remaining.map LensedSource.strong_flag).sum)

/-- `BackgroundCatalog.lens_by_halos` (ellipticity phase, lines 416-459):
identical flagging and branch logic, but the function never filters the
flagged rows out of the catalog and records no removed count. -/
def lens_by_halos (cat : List BGSource) : List LensedSource :=
  cat.map lensOne

/-- A background source whose reduced shear is 0.6: above the
strong-lensing flag threshold yet inside the weak branch. -/
def sStrong : BGSource := ⟨0, 0, 0, 0, 0.6, 0⟩

/-- A background source with nonzero e2_int lensed by a real reduced shear
g = 2, exercising the strong branch where conjugation matters. -/
def sConj : BGSource := ⟨0, 1 / 2, 0, 0, 2, 0⟩

end

/- ----------------------------------------------------------------- -/
/- Helper lemmas                                                     -/
/- ----------------------------------------------------------------- -/

theorem colLookup_map_other (n m : String) (v : List ℝ) (hmn : m ≠ n) :
    ∀ t : Table,
      colLookup (t.map fun c => if c.1 = n then (c.1, v) else c) m =
        colLookup t m
  | [] => rfl
  | c :: t => by
    have ih := colLookup_map_other n m v hmn t
    by_cases hc : c.1 = n
    · have hcm : ¬c.1 = m := fun h => hmn (h.symm.trans hc)
      simp only [List.map_cons, if_pos hc, colLookup, if_neg hcm, ih]
    · by_cases hm : c.1 = m
      · simp only [List.map_cons, if_neg hc, colLookup, if_pos hm]
      · simp only [List.map_cons, if_neg hc, colLookup, if_neg hm, ih]

theorem colLookup_append_other (n m : String) (v : List ℝ) (hmn : m ≠ n) :
    ∀ t : Table, colLookup (t ++ [(n, v)]) m = colLookup t m
  | [] => by
    have hnm : ¬n = m := fun h => hmn h.symm
    simp only [List.nil_append, colLookup, if_neg hnm]
  | c :: t => by
    have ih := colLookup_append_other n m v hmn t
    by_cases hm : c.1 = m
    · simp only [List.cons_append, colLookup, if_pos hm]
    · simp only [List.cons_append, colLookup, if_neg hm]
      exact ih

theorem colLookup_map_self (n : String) (v : List ℝ) :
    ∀ t : Table, (∃ c ∈ t, c.1 = n) →
      colLookup (t.map fun c => if c.1 = n then (c.1, v) else c) n = some v
  | [] => by rintro ⟨c, hc, -⟩; simp at hc
  | c :: t => by
    rintro ⟨d, hd, hdn⟩
    by_cases hc : c.1 = n
    · simp only [List.map_cons, if_pos hc, colLookup, if_pos hc]
    · have hdt : d ∈ t := by
        rcases List.mem_cons.mp hd with h | h
        · exact absurd (h ▸ hdn) hc
        · exact h
      simp only [List.map_cons, if_neg hc, colLookup, if_neg hc]
      exact colLookup_map_self n v t ⟨d, hdt, hdn⟩

theorem colLookup_append_self (n : String) (v : List ℝ) :
    ∀ t : Table, (∀ c ∈ t, ¬c.1 = n) →
      colLookup (t ++ [(n, v)]) n = some v
  | [] => by
    intro _
    simp [colLookup]
  | c :: t => by
    intro h
    simp only [List.cons_append, colLookup,
      if_neg (h c (List.mem_cons_self c t))]
    exact colLookup_append_self n v t fun d hd => h d (List.mem_cons_of_mem c hd)

theorem colLookup_writeColumn_self (t : Table) (n : String) (v : List ℝ) :
    colLookup (writeColumn t n v) n = some v := by
  unfold writeColumn
  by_cases h : (t.any fun c => c.1 = n) = true
  · rw [if_pos h]
    rw [List.any_eq_true] at h
    refine colLookup_map_self n v t ?_
    rcases h with ⟨c, hc, hcn⟩
    exact ⟨c, hc, by simpa using hcn⟩
  · rw [if_neg h]
    refine colLookup_append_self n v t fun c hc hcn => h ?_
    rw [List.any_eq_true]
    exact ⟨c, hc, by simpa using hcn⟩

theorem colLookup_writeColumn_other (t : Table) (n m : String) (v : List ℝ)
    (hmn : m ≠ n) : colLookup (writeColumn t n v) m = colLookup t m := by
  unfold writeColumn
  by_cases h : (t.any fun c => c.1 = n) = true
  · rw [if_pos h]
    exact colLookup_map_other n m v hmn t
  · rw [if_neg h]
    exact colLookup_append_other n m v hmn t

theorem lightconeSelect_mem (catalog : List SkyPos) (xc0 xc1 rmax : ℝ)
    (p : SkyPos) :
    p ∈ lightconeSelect catalog xc0 xc1 rmax ↔
      p ∈ catalog ∧ inSquare xc0 xc1 rmax p ∧ rLocal xc0 xc1 p < rmax := by
  simp [lightconeSelect, List.mem_filter, and_assoc, and_comm]

theorem arcmin2rad_pos : 0 < arcmin2rad := by
  unfold arcmin2rad
  positivity

theorem rLocal_pPole : rLocal 0 (Real.pi / 2) pPole = 0 := by
  have hx : xLocal 0 pPole = 0 := by
    simp [xLocal, pPole, Real.cos_pi_div_two]
  have hy : yLocal (Real.pi / 2) pPole = 0 := by
    simp [yLocal, pPole]
  rw [rLocal, hx, hy]
  norm_num

theorem pPole_not_inSquare : ¬inSquare 0 (Real.pi / 2) 1 pPole := by
  rintro ⟨-, h2, -, -⟩
  have ha := arcmin2rad_pos
  rw [show pPole.RA = 2 * arcmin2rad from rfl] at h2
  nlinarith

theorem combineMus_false_eval (gs : List Galaxy) (s : LCState) (k : ℝ)
    (h : s.kappa_add_total = some k) :
    combineMus gs s false = some (1 / ((1 - k) ^ 2 - Gsum gs ^ 2)) := by
  simp [combineMus, h]

theorem applyMethod_unknown (gs : List Galaxy) (fk : Option (List ℝ))
    (s : LCState) (m : String) (h1 : m ≠ "keeton") (h2 : m ≠ "tom")
    (h3 : m ≠ "add") : applyMethod gs fk s m = s := by
  simp [applyMethod, h1, h2, h3]

theorem reducedShear_sStrong : reducedShear sStrong = ((0.6 : ℝ) : ℂ) := by
  simp [reducedShear, sStrong]

theorem lensOne_sStrong_flag : (lensOne sStrong).strong_flag = 1 := by
  show (if 0.5 < Complex.abs (reducedShear sStrong) then 1
    else sStrong.strong_flag) = 1
  rw [reducedShear_sStrong, Complex.abs_ofReal,
    abs_of_pos (by norm_num : (0:ℝ) < 0.6),
    if_pos (by norm_num : (0.5:ℝ) < 0.6)]

theorem reducedShear_sConj : reducedShear sConj = 2 := by
  norm_num [reducedShear, sConj]

theorem eInt_sConj :
    ((sConj.e1_int : ℂ) + (sConj.e2_int : ℂ) * Complex.I) =
      Complex.I / 2 := by
  show (((0:ℝ) : ℂ) + ((1 / 2 : ℝ) : ℂ) * Complex.I) = Complex.I / 2
  push_cast
  ring

theorem iHalfPlusTwo_ne_zero : (Complex.I / 2 + 2 : ℂ) ≠ 0 := by
  intro h
  have := congrArg Complex.re h
  simp [Complex.add_re, Complex.div_re] at this

theorem negIHalfPlusTwo_ne_zero : (-(Complex.I / 2) + 2 : ℂ) ≠ 0 := by
  intro h
  have := congrArg Complex.re h
  simp [Complex.add_re, Complex.div_re, Complex.neg_re] at this

theorem e_obs_strong_value :
    e_obs (Complex.I / 2) 2 = 10 / 17 + (6 / 17) * Complex.I := by
  rw [e_obs, if_neg (by rw [Complex.abs_two]; norm_num)]
  rw [map_ofNat]
  rw [div_eq_iff iHalfPlusTwo_ne_zero]
  ring_nf
  rw [Complex.I_sq]
  ring

theorem e_obs_spec_strong_value :
    e_obs_spec (Complex.I / 2) 2 = 10 / 17 - (6 / 17) * Complex.I := by
  rw [e_obs_spec, if_neg (by rw [Complex.abs_two]; norm_num)]
  rw [map_ofNat]
  rw [show (starRingEnd ℂ) (Complex.I / 2) = -(Complex.I / 2) by
    rw [map_div₀, Complex.conj_I, Complex.conj_ofNat]
    ring]
  rw [div_eq_iff negIHalfPlusTwo_ne_zero]
  ring_nf
  rw [Complex.I_sq]
  ring

/- ----------------------------------------------------------------- -/
/- Claim theorems                                                    -/
/- ----------------------------------------------------------------- -/

/-- C10: for every column name and value array, `writeColumn` sets that
column of the galaxies table (creating or overwriting it), leaves every
other column unchanged, and a reread always sees the values most recently
written, including across repeated passes. -/
theorem writeColumn_preserves_pipeline (t : Table) (n : String)
    (v : List ℝ) :
    colLookup (writeColumn t n v) n = some v ∧
    (∀ m, m ≠ n → colLookup (writeColumn t n v) m = colLookup t m) ∧
    (∀ v2 : List ℝ,
      colLookup (writeColumn (writeColumn t n v2) n v) n = some v) :=
  ⟨colLookup_writeColumn_self t n v,
   fun m hmn => colLookup_writeColumn_other t n m v hmn,
   fun v2 => colLookup_writeColumn_self (writeColumn t n v2) n v⟩

/-- Witness for C10 at a concrete table: writing a new column keeps the
existing one intact and the new column reads back. -/
theorem writeColumn_preserves_pipeline_witness :
    colLookup (writeColumn tEx ("kappa") [2]) ("kappa") = some [2] ∧
    colLookup (writeColumn tEx ("kappa") [2]) ("z") = some [1] := by
  refine ⟨(writeColumn_preserves_pipeline tEx ("kappa") [2]).1, ?_⟩
  rw [(writeColumn_preserves_pipeline tEx ("kappa") [2]).2.1 ("z")
    (by decide)]
  rfl

/-- C1 counterexample: `combineKappas` raises no configuration error on an
unrecognised scheme name - the call returns normally and the resulting
state is identical to the call without the unknown name, i.e. the name is
silently ignored and the remaining schemes are processed as if it were
absent. -/
theorem combineKappas_unknown_scheme_silently_ignored :
    combineKappas [gEx] none [("nonsense"), ("add")] =
      combineKappas [gEx] none [("add")] := rfl

/-- C1 amended: a requested scheme name other than add, keeton and tom is
silently skipped by the method loop: the resulting lightcone state equals
the state produced by the same call with that name removed from the list. -/
theorem combineKappas_skips_unrecognized (gs : List Galaxy)
    (fk : Option (List ℝ)) (ms1 ms2 : List String) (m : String)
    (h1 : m ≠ "add") (h2 : m ≠ "keeton") (h3 : m ≠ "tom") :
    combineKappas gs fk (ms1 ++ m :: ms2) =
      combineKappas gs fk (ms1 ++ ms2) := by
  unfold combineKappas
  rw [List.foldl_append, List.foldl_append, List.foldl_cons,
    applyMethod_unknown gs fk _ m h2 h3 h1]

/-- Witness for the amended C1 at a concrete lightcone and method list. -/
theorem combineKappas_skips_unrecognized_witness :
    combineKappas [gEx] none [("add"), ("junk")] =
      combineKappas [gEx] none [("add")] :=
  combineKappas_skips_unrecognized [gEx] none [("add")] [] ("junk")
    (by decide) (by decide) (by decide)

/-- C4: for every galaxy row, `combineKappas` computes the keeton corrected
convergence and shear as `(1-b)(k - b(k^2-g^2)) / ((1-bk)^2 - (bg)^2)` and
`(1-b)g1 / ((1-bk)^2-(bg)^2)`, `(1-b)g2 / ((1-bk)^2-(bg)^2)`, the tom
corrected values as `(1-b)k`, `(1-b)g1`, `(1-b)g2`, and each scheme's
lightcone totals are the sums of these per-object corrected values. -/
theorem combineKappas_keeton_tom_totals (gs : List Galaxy)
    (fk : Option (List ℝ)) :
    (combineKappas gs fk ["add", "keeton", "tom"]).kappa_keeton_total =
      some (gs.map fun g =>
        (1 - g.beta) * (g.kappa - g.beta * (g.kappa ^ 2 - g.gamma ^ 2)) /
          ((1 - g.beta * g.kappa) ^ 2 - (g.beta * g.gamma) ^ 2)).sum ∧
    (combineKappas gs fk ["add", "keeton", "tom"]).gamma1_keeton_total =
      some (gs.map fun g =>
        (1 - g.beta) * g.gamma1 /
          ((1 - g.beta * g.kappa) ^ 2 - (g.beta * g.gamma) ^ 2)).sum ∧
    (combineKappas gs fk ["add", "keeton", "tom"]).gamma2_keeton_total =
      some (gs.map fun g =>
        (1 - g.beta) * g.gamma2 /
          ((1 - g.beta * g.kappa) ^ 2 - (g.beta * g.gamma) ^ 2)).sum ∧
    (combineKappas gs fk ["add", "keeton", "tom"]).kappa_tom_total =
      some (gs.map fun g => (1 - g.beta) * g.kappa).sum ∧
    (combineKappas gs fk ["add", "keeton", "tom"]).gamma1_tom_total =
      some (gs.map fun g => (1 - g.beta) * g.gamma1).sum ∧
    (combineKappas gs fk ["add", "keeton", "tom"]).gamma2_tom_total =
      some (gs.map fun g => (1 - g.beta) * g.gamma2).sum :=
  ⟨rfl, rfl, rfl, rfl, rfl, rfl⟩

/-- C7: when beta is 0 for every galaxy of the lightcone, the keeton and
tom totals computed by `combineKappas` coincide exactly with the add
totals. -/
theorem combineKappas_beta_zero_schemes_agree (gs : List Galaxy)
    (hb : ∀ g ∈ gs, g.beta = 0) :
    (combineKappas gs none ["add", "keeton", "tom"]).kappa_keeton_total =
      (combineKappas gs none ["add", "keeton", "tom"]).kappa_add_total ∧
    (combineKappas gs none ["add", "keeton", "tom"]).gamma1_keeton_total =
      (combineKappas gs none ["add", "keeton", "tom"]).gamma1_add_total ∧
    (combineKappas gs none ["add", "keeton", "tom"]).gamma2_keeton_total =
      (combineKappas gs none ["add", "keeton", "tom"]).gamma2_add_total ∧
    (combineKappas gs none ["add", "keeton", "tom"]).kappa_tom_total =
      (combineKappas gs none ["add", "keeton", "tom"]).kappa_add_total ∧
    (combineKappas gs none ["add", "keeton", "tom"]).gamma1_tom_total =
      (combineKappas gs none ["add", "keeton", "tom"]).gamma1_add_total ∧
    (combineKappas gs none ["add", "keeton", "tom"]).gamma2_tom_total =
      (combineKappas gs none ["add", "keeton", "tom"]).gamma2_add_total := by
  have hkk : gs.map kappa_keeton = gs.map Galaxy.kappa :=
    List.map_congr_left fun g hg => by
      simp [kappa_keeton, keetonDenom, hb g hg]
  have hk1 : gs.map gamma1_keeton = gs.map Galaxy.gamma1 :=
    List.map_congr_left fun g hg => by
      simp [gamma1_keeton, keetonDenom, hb g hg]
  have hk2 : gs.map gamma2_keeton = gs.map Galaxy.gamma2 :=
    List.map_congr_left fun g hg => by
      simp [gamma2_keeton, keetonDenom, hb g hg]
  have htk : gs.map kappa_tom = gs.map Galaxy.kappa :=
    List.map_congr_left fun g hg => by simp [kappa_tom, hb g hg]
  have ht1 : gs.map gamma1_tom = gs.map Galaxy.gamma1 :=
    List.map_congr_left fun g hg => by simp [gamma1_tom, hb g hg]
  have ht2 : gs.map gamma2_tom = gs.map Galaxy.gamma2 :=
    List.map_congr_left fun g hg => by simp [gamma2_tom, hb g hg]
  refine ⟨?_, ?_, ?_, ?_, ?_, ?_⟩
  · show some (gs.map kappa_keeton).sum = some (gs.map Galaxy.kappa).sum
    rw [hkk]
  · show some (gs.map gamma1_keeton).sum = some (gs.map Galaxy.gamma1).sum
    rw [hk1]
  · show some (gs.map gamma2_keeton).sum = some (gs.map Galaxy.gamma2).sum
    rw [hk2]
  · show some (gs.map kappa_tom).sum = some (gs.map Galaxy.kappa).sum
    rw [htk]
  · show some (gs.map gamma1_tom).sum = some (gs.map Galaxy.gamma1).sum
    rw [ht1]
  · show some (gs.map gamma2_tom).sum = some (gs.map Galaxy.gamma2).sum
    rw [ht2]

/-- Witness for C7 at a concrete one-galaxy lightcone with beta = 0. -/
theorem combineKappas_beta_zero_schemes_agree_witness :
    (combineKappas [gEx0] none ["add", "keeton", "tom"]).kappa_keeton_total =
      (combineKappas [gEx0] none ["add", "keeton", "tom"]).kappa_add_total ∧
    (combineKappas [gEx0] none ["add", "keeton", "tom"]).gamma1_keeton_total =
      (combineKappas [gEx0] none ["add", "keeton", "tom"]).gamma1_add_total ∧
    (combineKappas [gEx0] none ["add", "keeton", "tom"]).gamma2_keeton_total =
      (combineKappas [gEx0] none ["add", "keeton", "tom"]).gamma2_add_total ∧
    (combineKappas [gEx0] none ["add", "keeton", "tom"]).kappa_tom_total =
      (combineKappas [gEx0] none ["add", "keeton", "tom"]).kappa_add_total ∧
    (combineKappas [gEx0] none ["add", "keeton", "tom"]).gamma1_tom_total =
      (combineKappas [gEx0] none ["add", "keeton", "tom"]).gamma1_add_total ∧
    (combineKappas [gEx0] none ["add", "keeton", "tom"]).gamma2_tom_total =
      (combineKappas [gEx0] none ["add", "keeton", "tom"]).gamma2_add_total :=
  combineKappas_beta_zero_schemes_agree [gEx0] (by
    intro g hg
    rw [List.mem_singleton] at hg
    rw [hg]
    rfl)

/-- C8: a lightcone with zero galaxies and no foreground correction yields
total kappa = gamma1 = gamma2 = 0 under add, keeton and tom, and
`combineMus` then yields exactly 1 in both the weak-approximation branch
and the exact branch. -/
theorem zero_galaxy_cone :
    (combineKappas [] none ["add", "keeton", "tom"]).kappa_add_total =
      some 0 ∧
    (combineKappas [] none ["add", "keeton", "tom"]).gamma1_add_total =
      some 0 ∧
    (combineKappas [] none ["add", "keeton", "tom"]).gamma2_add_total =
      some 0 ∧
    (combineKappas [] none ["add", "keeton", "tom"]).kappa_keeton_total =
      some 0 ∧
    (combineKappas [] none ["add", "keeton", "tom"]).gamma1_keeton_total =
      some 0 ∧
    (combineKappas [] none ["add", "keeton", "tom"]).gamma2_keeton_total =
      some 0 ∧
    (combineKappas [] none ["add", "keeton", "tom"]).kappa_tom_total =
      some 0 ∧
    (combineKappas [] none ["add", "keeton", "tom"]).gamma1_tom_total =
      some 0 ∧
    (combineKappas [] none ["add", "keeton", "tom"]).gamma2_tom_total =
      some 0 ∧
    combineMus [] (combineKappas [] none ["add", "keeton", "tom"]) true =
      some 1 ∧
    combineMus [] (combineKappas [] none ["add", "keeton", "tom"]) false =
      some 1 := by
  refine ⟨rfl, rfl, rfl, rfl, rfl, rfl, rfl, rfl, rfl, ?_, ?_⟩
  · show some (if true then 1 + 2 * (0:ℝ) else _) = some 1
    norm_num
  · show some (if false then _ else
      1 / ((1 - (0:ℝ)) ^ 2 - Gsum [] ^ 2)) = some 1
    have h : Gsum ([] : List Galaxy) = 0 := by
      simp [Gsum]
    rw [if_neg (by simp)]
    rw [h]
    norm_num

/-- C9: `combineMus` returns `1 + 2*Ksum` when weakapprox is true and
`1/((1-Ksum)^2 - Gsum^2)` when weakapprox is false, where Ksum is the add
total previously stored by `combineKappas` and Gsum is the modulus
`sqrt((sum gamma1)^2 + (sum gamma2)^2)` of the summed shear components. -/
theorem combineMus_formulas (gs : List Galaxy) (s : LCState) (k : ℝ)
    (h : s.kappa_add_total = some k) :
    combineMus gs s true = some (1 + 2 * k) ∧
    combineMus gs s false = some (1 / ((1 - k) ^ 2 -
      Real.sqrt ((gs.map Galaxy.gamma1).sum ^ 2 +
        (gs.map Galaxy.gamma2).sum ^ 2) ^ 2)) := by
  constructor
  · simp [combineMus, h]
  · simp [combineMus, h, Gsum]

/-- Witness for C9 on the empty lightcone after the add pass. -/
theorem combineMus_formulas_witness :
    combineMus [] (combineKappas [] none [("add")]) true =
      some (1 + 2 * 0) ∧
    combineMus [] (combineKappas [] none [("add")]) false =
      some (1 / ((1 - (0:ℝ)) ^ 2 -
        Real.sqrt ((0:ℝ) ^ 2 + (0:ℝ) ^ 2) ^ 2)) :=
  combineMus_formulas [] (combineKappas [] none [("add")]) 0 rfl

/-- C3 counterexample: a catalog galaxy at the celestial pole has
tangent-plane radius r = 0, strictly inside the 1-arcmin cone, yet the
constructor selection drops it: its RA offset (2 arcmin in radians)
fails the square RA window even though the cos(Dec) factor sends x to 0.
So the selection does not retain every galaxy with r < radius. -/
theorem lightconeSelect_drops_inradius_galaxy :
    (pPole ∈ [pPole] ∧ rLocal 0 (Real.pi / 2) pPole < 1) ∧
      pPole ∉ lightconeSelect [pPole] 0 (Real.pi / 2) 1 := by
  refine ⟨⟨List.mem_singleton_self pPole, ?_⟩, ?_⟩
  · rw [rLocal_pPole]
    norm_num
  · intro hmem
    exact pPole_not_inSquare
      ((lightconeSelect_mem [pPole] 0 (Real.pi / 2) 1 pPole).mp hmem).2.1

/-- C3 amended: the constructor selection retains exactly the galaxies that
pass both the strict square pre-filter (RA and Dec within
radius*arcmin2rad of the centre) and the circular cut r < radius; every
retained galaxy has r < radius, but a galaxy with r < radius that falls
outside the square RA window is dropped. -/
theorem lightconeSelect_exact (catalog : List SkyPos) (xc0 xc1 rmax : ℝ)
    (p : SkyPos) :
    p ∈ lightconeSelect catalog xc0 xc1 rmax ↔
      p ∈ catalog ∧ inSquare xc0 xc1 rmax p ∧ rLocal xc0 xc1 p < rmax :=
  lightconeSelect_mem catalog xc0 xc1 rmax p

/-- C6 counterexample: a single halo with kappa = 1, gamma = 0 drives the
exact-magnification denominator to zero, yet neither computation performs
any check: `makeKappas` assigns mu by the unguarded division and
`combineMus(weakapprox=False)` returns an ordinary value (the plain
reciprocal at a zero denominator), with no flagged or error outcome. -/
theorem magnification_zero_denominator_unflagged :
    (combineKappas [gCrit] none [("add")]).kappa_add_total = some 1 ∧
    (1 - (1:ℝ)) ^ 2 - Gsum [gCrit] ^ 2 = 0 ∧
    combineMus [gCrit] (combineKappas [gCrit] none [("add")]) false =
      some (1 / ((1 - (1:ℝ)) ^ 2 - Gsum [gCrit] ^ 2)) ∧
    makeKappas_mu 1 0 = 1 / ((1 - (1:ℝ)) ^ 2 - (0:ℝ) ^ 2) := by
  have hGsum : Gsum [gCrit] = 0 := by
    simp [Gsum, gCrit]
  have hk : (combineKappas [gCrit] none [("add")]).kappa_add_total =
      some 1 := by
    show some ((1:ℝ) + 0) = some 1
    norm_num
  refine ⟨hk, ?_, ?_, rfl⟩
  · rw [hGsum]
    norm_num
  · exact combineMus_false_eval [gCrit] (combineKappas [gCrit] none [("add")]) 1 hk

/-- C6 amended: no near-zero check exists.  `makeKappas` computes the
per-halo magnification by the unguarded division 1/((1-kappa)^2-gamma^2),
and the exact branch of `combineMus` returns the plain reciprocal of the
total denominator even when that denominator is exactly zero. -/
theorem combineMus_no_denominator_guard (gs : List Galaxy) (s : LCState)
    (k : ℝ) (h : s.kappa_add_total = some k)
    (h0 : (1 - k) ^ 2 - Gsum gs ^ 2 = 0) :
    combineMus gs s false = some (1 / ((1 - k) ^ 2 - Gsum gs ^ 2)) ∧
    ∀ kap gam : ℝ, (1 - kap) ^ 2 - gam ^ 2 = 0 →
      makeKappas_mu kap gam = 1 / ((1 - kap) ^ 2 - gam ^ 2) := by
  constructor
  · simp [combineMus, h]
  · intro kap gam _
    rfl

/-- Witness for the amended C6 at the critical one-halo lightcone. -/
theorem combineMus_no_denominator_guard_witness :
    combineMus [gCrit] (combineKappas [gCrit] none [("add")]) false =
      some (1 / ((1 - (1:ℝ)) ^ 2 - Gsum [gCrit] ^ 2)) := by
  have hGsum : Gsum [gCrit] = 0 := by
    simp [Gsum, gCrit]
  exact (combineMus_no_denominator_guard [gCrit]
    (combineKappas [gCrit] none [("add")]) 1
    (by show some ((1:ℝ) + 0) = some 1; norm_num)
    (by rw [hGsum]; norm_num)).1

/-- C2: evaluation at the failing input.  A lone background source with
reduced shear 0.6 gets its strong-lensing flag set, and `lens_by_map`
removes it from the catalog - but records `strong_lensed_removed = 0`,
because the count is the flag-sum over the catalog remaining after the
filter; `lens_by_halos` sets the flag yet leaves the flagged source in
the catalog and records no count at all. -/
theorem strong_lensing_batch_bookkeeping :
    (lensOne sStrong).strong_flag = 1 ∧
    (lens_by_map [sStrong]).1 = [] ∧
    (lens_by_map [sStrong]).2 = 0 ∧
    lens_by_halos [sStrong] = [lensOne sStrong] := by
  have hmap : lens_by_map [sStrong] = ([], 0) := by
    simp [lens_by_map, List.filter, lensOne_sStrong_flag]
  exact ⟨lensOne_sStrong_flag, by rw [hmap], by rw [hmap], rfl⟩

/-- C5: evaluation at the failing input.  For e_int = i/2 and g = 2 the
code takes the strong branch but uses e_int where the specified formula
has conj(e_int) (the code conjugates the two real component arrays
separately, which is the identity), so the observed ellipticity differs
from the spec formula: (10 + 6i)/17 against (10 - 6i)/17. -/
theorem strong_branch_conjugation_slip :
    Complex.abs (reducedShear sConj) = 2 ∧
    (lensOne sConj).e = e_obs (Complex.I / 2) 2 ∧
    e_obs (Complex.I / 2) 2 = 10 / 17 + (6 / 17) * Complex.I ∧
    e_obs_spec (Complex.I / 2) 2 = 10 / 17 - (6 / 17) * Complex.I ∧
    e_obs (Complex.I / 2) 2 ≠ e_obs_spec (Complex.I / 2) 2 := by
  refine ⟨by rw [reducedShear_sConj, Complex.abs_two], ?_,
    e_obs_strong_value, e_obs_spec_strong_value, ?_⟩
  · show e_obs ((sConj.e1_int : ℂ) + (sConj.e2_int : ℂ) * Complex.I)
      (reducedShear sConj) = e_obs (Complex.I / 2) 2
    rw [eInt_sConj, reducedShear_sConj]
  · rw [e_obs_strong_value, e_obs_spec_strong_value]
    simp [Complex.ext_iff]
    norm_num

end Pangloss
